import Mathlib

/-!
Shallow embedding of the TopstepX MCP server (TypeScript sources
`src/auth.ts`, `src/data.ts`, `src/tools.ts`) and proofs about the
claims of its specification.

Conventions of the embedding:
* JavaScript truthiness of strings / numbers / optional values is made
  explicit via `truthyStr`, `truthyInt`, `truthyNat`.
* The process state (module-level mutable variables, the remote API and
  the list of issued HTTP calls) is a `World` record threaded through
  every function; `async` functions of type `Promise<T>` that can throw
  become functions `World → Except JsError T × World`.
* The remote API is an oracle: a script (`World.remote`) of
  `HttpOutcome`s consumed one per HTTP attempt.  An exhausted script
  behaves as a transport error.  Every HTTP attempt appends the request
  path to `World.calls`, so "issues no remote call" is a statement
  about that log.
* Times are natural numbers of milliseconds (`Date.now()` style).
-/

namespace TopstepX

/-- JS truthiness of a possibly-absent string (`undefined`/`null`/`""` are falsy). -/
def truthyStr : Option String → Bool
  | none => false
  | some s => s ≠ ""

/-- JS truthiness of a possibly-absent number (`undefined`/`null`/`0` are falsy). -/
def truthyInt : Option Int → Bool
  | none => false
  | some n => n ≠ 0

/-- JS truthiness of a possibly-absent nonnegative integer id. -/
def truthyNat : Option Nat → Bool
  | none => false
  | some n => n ≠ 0

/-- `a || d` for strings under JS truthiness. -/
def strOrD (v : Option String) (d : String) : String :=
  if truthyStr v then v.getD d else d

/-- `Account` from `src/types.ts`. -/
structure Account where
  id : Nat
  name : String
  balance : Int
  canTrade : Bool
  isVisible : Bool
  simulated : Bool
deriving Repr, DecidableEq

/-- `Contract` from `src/types.ts` (fractional fields modelled as integers:
no claim depends on their arithmetic). -/
structure Contract where
  id : Nat
  symbol : String
  name : String
  exchange : String
  tickSize : Int
  pointValue : Int
  minQuantity : Int
  maxQuantity : Int
  tradingHours : String
deriving Repr, DecidableEq

/-- `Position` from `src/types.ts`. -/
structure Position where
  id : Nat
  accountId : Nat
  contractId : Nat
  symbol : String
  quantity : Int
  side : String
  averagePrice : Int
  unrealizedPnl : Int
  realizedPnl : Int
  openTime : String
deriving Repr, DecidableEq

/-- `Order` from `src/types.ts`. -/
structure Order where
  id : Nat
  accountId : Nat
  contractId : Nat
  symbol : String
  side : String
  orderType : String
  quantity : Int
  price : Option Int
  stopPrice : Option Int
  status : String
  filledQuantity : Int
deriving Repr, DecidableEq

/-- `Bar` from `src/types.ts`. -/
structure Bar where
  symbol : String
  timestamp : String
  «open» : Int
  high : Int
  low : Int
  close : Int
  volume : Int
deriving Repr, DecidableEq

/-- `PlaceOrderRequest` from `src/types.ts`. -/
structure PlaceOrderRequest where
  accountId : Nat
  contractId : Nat
  side : String
  orderType : String
  quantity : Int
  timeInForce : String
  price : Option Int := none
  stopPrice : Option Int := none
deriving Repr, DecidableEq

/-- `ModifyOrderRequest` from `src/types.ts`. -/
structure ModifyOrderRequest where
  orderId : Nat
  quantity : Option Int := none
  price : Option Int := none
  stopPrice : Option Int := none
deriving Repr, DecidableEq

/-- Payload values carried in remote responses (the `data` field of an
envelope): the shapes this server actually consumes. -/
inductive Value where
  | contracts (cs : List Contract)
  | bars (bs : List Bar)
  | num (n : Int)
  | str (s : String)
deriving Repr, DecidableEq

/-- The JSON body sent with an outbound HTTP request, one constructor
per request shape this server issues. -/
inductive ReqBody where
  | loginKey (userName : String) (apiKey : String)
  | accountSearch (onlyActiveAccounts : Bool)
  | contractSearch (searchText : String) (live : Bool)
  | order (r : PlaceOrderRequest)
  | modify (r : ModifyOrderRequest)
  | cancel (orderId : Nat)
  | closePartial (positionId : Nat) (quantity : Int)
  | retrieveBars (contractId : Nat) (startTime : String) (endTime : String) (barType : String)
deriving Repr, DecidableEq

/-- A JSON response body as the server inspects it: the envelope fields
`success`, `data`, `errorMessage`, plus `token` (login responses) and
`accounts` (`/Account/search` responses).  Absent fields are `none`. -/
structure Body where
  success : Option Bool := none
  token : Option String := none
  errorMessage : Option String := none
  data : Option Value := none
  accounts : Option (List Account) := none
deriving Repr, DecidableEq

/-- Outcome of one HTTP attempt: a 2xx response with a JSON body, or an
axios rejection carrying the response status when one exists (non-2xx
status) and `none` for a pure transport error. -/
inductive HttpOutcome where
  | ok (body : Body)
  | err (status : Option Nat)
deriving Repr, DecidableEq

/-- What `topstepxRequest` returns to its caller: the `data` field, the
whole envelope / raw body, or JS `undefined`. -/
inductive GatewayValue where
  | ofVal (v : Value)
  | ofBody (b : Body)
  | undef
deriving Repr, DecidableEq

/-- A thrown JS exception: a plain `Error` with a message, or an axios
error carrying an optional HTTP response status. -/
inductive JsError where
  | error (msg : String)
  | http (status : Option Nat)
deriving Repr, DecidableEq

/-- The environment variables the auth module reads. -/
structure Env where
  environmentVar : Option String := none
  topstepxUsername : Option String := none
  projectxUsername : Option String := none
  topstepxApiKey : Option String := none
  projectxApiKey : Option String := none
deriving Repr, DecidableEq

/-- The module-level session state of `src/auth.ts`: `authToken`,
`tokenExpiry`, and whether `axiosInstance` is non-null (it carries no
further claim-relevant data). -/
structure Session where
  authToken : Option String := none
  tokenExpiry : Option Nat := none
  axiosInstance : Bool := false
deriving Repr, DecidableEq

/-- The whole process state: environment, current time, session,
remote-response script, log of issued HTTP request paths, and the three
module-level caches of `src/data.ts`. -/
structure World where
  env : Env
  now : Nat
  session : Session
  remote : List HttpOutcome
  calls : List (String × ReqBody)
  accountsCache : List (Nat × Account)
  contractsCache : List (String × Contract)
  symbolToContractIdMap : List (String × Nat)
deriving Repr, DecidableEq

/-- Issue one HTTP attempt: log the path with its request body and
consume the head of the remote script (an exhausted script is a
transport error). -/
def issueHttp (w : World) (path : String) (body : ReqBody) : HttpOutcome × World :=
  match w.remote with
  | [] => (HttpOutcome.err none, { w with calls := w.calls ++ [(path, body)] })
  | o :: rest => (o, { w with remote := rest, calls := w.calls ++ [(path, body)] })

/-- `getApiUrl` (`src/auth.ts:13`): `process.env.TOPSTEPX_ENVIRONMENT || 'demo'`,
then a three-way branch. -/
def getApiUrl (env : Env) : String :=
  let environment := strOrD env.environmentVar "demo"
  if environment = "topstepx" ∨ environment = "demo" then
    "https://api.topstepx.com/api"
  else if environment = "live" then
    "https://gateway-api.s2f.projectx.com/api"
  else
    "https://gateway-api-demo.s2f.projectx.com/api"

/-- `process.env.TOPSTEPX_USERNAME || process.env.PROJECTX_USERNAME`. -/
def credUsername (env : Env) : Option String :=
  if truthyStr env.topstepxUsername then env.topstepxUsername else env.projectxUsername

/-- `process.env.TOPSTEPX_API_KEY || process.env.PROJECTX_API_KEY`. -/
def credApiKey (env : Env) : Option String :=
  if truthyStr env.topstepxApiKey then env.topstepxApiKey else env.projectxApiKey

/-- The message of the missing-credentials `Error` in `authenticate`. -/
def missingCredsMsg : String :=
  "TOPSTEPX_USERNAME/PROJECTX_USERNAME and TOPSTEPX_API_KEY/PROJECTX_API_KEY must be set in environment variables"

/-- `authenticate` (`src/auth.ts:28`): throws when either credential is
falsy; otherwise posts `/Auth/loginKey`; on a 2xx body with truthy
`success` and truthy `token`, stores the token, sets the expiry 24 hours
ahead and builds the authenticated axios instance; otherwise throws
(`errorMessage || 'Authentication failed'`, or the transport error). -/
def authenticate (w : World) : Except JsError Unit × World :=
  if ¬ truthyStr (credUsername w.env) ∨ ¬ truthyStr (credApiKey w.env) then
    (Except.error (JsError.error missingCredsMsg), w)
  else
    match issueHttp w "/Auth/loginKey"
        (ReqBody.loginKey ((credUsername w.env).getD "") ((credApiKey w.env).getD "")) with
    | (HttpOutcome.err s, w1) => (Except.error (JsError.http s), w1)
    | (HttpOutcome.ok b, w1) =>
      if b.success = some true ∧ truthyStr b.token then
        (Except.ok (),
          { w1 with session :=
            { authToken := b.token
              tokenExpiry := some (w1.now + 24 * 60 * 60 * 1000)
              axiosInstance := true } })
      else
        (Except.error (JsError.error (strOrD b.errorMessage "Authentication failed")), w1)

/-- `!tokenExpiry || tokenExpiry < new Date()`. -/
def expiryPassed : Option Nat → Nat → Bool
  | none, _ => true
  | some e, now => decide (e < now)

/-- `ensureAuthenticated` (`src/auth.ts:98`): re-login iff the token is
falsy, the expiry is null, or the expiry is in the past. -/
def ensureAuthenticated (w : World) : Except JsError Unit × World :=
  if truthyStr w.session.authToken = false ∨ expiryPassed w.session.tokenExpiry w.now then
    authenticate w
  else
    (Except.ok (), w)

/-- Normalization of a first-attempt response body
(`src/auth.ts:124`-`136`): `success` present and truthy → `data` if
present else the whole envelope; present and falsy → throw
`errorMessage || 'Request failed'`; absent → the raw body. -/
def normalizeBody (b : Body) : Except JsError GatewayValue :=
  match b.success with
  | some s =>
    if s then
      match b.data with
      | some v => Except.ok (GatewayValue.ofVal v)
      | none => Except.ok (GatewayValue.ofBody b)
    else
      Except.error (JsError.error (strOrD b.errorMessage "Request failed"))
  | none => Except.ok (GatewayValue.ofBody b)

/-- Normalization of the post-re-authentication retry response
(`src/auth.ts:151`-`155`): truthy `success` → `data` (JS `undefined`
when absent); otherwise throw `errorMessage || 'Request failed'`. -/
def retryNormalizeBody (b : Body) : Except JsError GatewayValue :=
  if b.success = some true then
    Except.ok (match b.data with
      | some v => GatewayValue.ofVal v
      | none => GatewayValue.undef)
  else
    Except.error (JsError.error (strOrD b.errorMessage "Request failed"))

/-- The single retry of `topstepxRequest` after a successful
re-authentication (`src/auth.ts:145`-`155`): one more HTTP attempt,
normalized by the retry rule; a rejection propagates. -/
def retryAttempt (w4 : World) (path : String) (body : ReqBody) :
    Except JsError GatewayValue × World :=
  match issueHttp w4 path body with
  | (HttpOutcome.ok b2, w5) => (retryNormalizeBody b2, w5)
  | (HttpOutcome.err s2, w5) => (Except.error (JsError.http s2), w5)

/-- The 401-recovery block of `topstepxRequest` (`src/auth.ts:138`-`156`):
clear the token, re-authenticate once, then retry the call exactly
once; any failure propagates. -/
def requestRetry (w2 : World) (path : String) (body : ReqBody) :
    Except JsError GatewayValue × World :=
  match authenticate { w2 with session := { w2.session with authToken := none } } with
  | (Except.error e, w4) => (Except.error e, w4)
  | (Except.ok _, w4) => retryAttempt w4 path body

/-- The `try`/`catch` of `topstepxRequest`: issue the call and normalize
a 2xx body; a 401 rejection enters the recovery block; any other
rejection propagates unmodified. -/
def requestAttempt (w1 : World) (path : String) (body : ReqBody) :
    Except JsError GatewayValue × World :=
  match issueHttp w1 path body with
  | (HttpOutcome.ok b, w2) => (normalizeBody b, w2)
  | (HttpOutcome.err s, w2) =>
    if s = some 401 then requestRetry w2 path body
    else (Except.error (JsError.http s), w2)

/-- `topstepxRequest` (`src/auth.ts:104`): ensure a session, require the
axios instance, then run the guarded attempt. -/
def topstepxRequest (w : World) (path : String) (body : ReqBody) :
    Except JsError GatewayValue × World :=
  match ensureAuthenticated w with
  | (Except.error e, w1) => (Except.error e, w1)
  | (Except.ok _, w1) =>
    if w1.session.axiosInstance = false then
      (Except.error (JsError.error "Not authenticated"), w1)
    else
      requestAttempt w1 path body

/-! ## Data layer (`src/data.ts`) -/

/-- `record[k] = v` on a JS record modelled as an association list:
replace in place when the key exists, append otherwise. -/
def recordSet {κ α : Type} [DecidableEq κ] (m : List (κ × α)) (k : κ) (v : α) : List (κ × α) :=
  if m.any (fun p => p.1 = k) then
    m.map (fun p => if p.1 = k then (k, v) else p)
  else
    m ++ [(k, v)]

/-- `record[k]` (property read) on a JS record. -/
def recordGet {κ α : Type} [DecidableEq κ] (m : List (κ × α)) (k : κ) : Option α :=
  (m.find? (fun p => p.1 = k)).map Prod.snd

/-- JS truthiness of a gateway value (`undefined`, `0` and `""` are
falsy, every object and array is truthy). -/
def truthyGV : GatewayValue → Bool
  | GatewayValue.undef => false
  | GatewayValue.ofVal (Value.num n) => n ≠ 0
  | GatewayValue.ofVal (Value.str s) => s ≠ ""
  | _ => true

/-- The `accounts` property of a gateway value (present only when the
value is a response body carrying one). -/
def accountsProp : GatewayValue → Option (List Account)
  | GatewayValue.ofBody b => b.accounts
  | _ => none

/-- `contracts && contracts.length > 0 ? contracts[0] : nothing`:
the first element when the value is a non-empty contract array. -/
def firstContract : GatewayValue → Option Contract
  | GatewayValue.ofVal (Value.contracts (c :: _)) => some c
  | _ => none

/-- `response.accounts.forEach(a => accountsCache[a.id] = a)` starting
from an empty record. -/
def buildAccountMap (l : List Account) : List (Nat × Account) :=
  l.foldl (fun m a => recordSet m a.id a) []

/-- The clear-and-repopulate step of `loadAccounts`
(`src/data.ts:41`-`50`): clear the account cache, then fill it from the
response's `accounts` field when the response is truthy and carries
one, leaving it empty otherwise. -/
def repopulateAccounts (w1 : World) (v : GatewayValue) : World :=
  let w2 := { w1 with accountsCache := [] }
  if truthyGV v ∧ (accountsProp v).isSome then
    { w2 with accountsCache := buildAccountMap ((accountsProp v).getD []) }
  else
    w2

/-- `loadAccounts` (`src/data.ts:34`), continued: one `/Account/search`
call; on success the clear/repopulate step above; every error is caught
and swallowed, leaving the cache untouched. -/
def loadAccounts (w : World) : Except JsError Unit × World :=
  match topstepxRequest w "/Account/search" (ReqBody.accountSearch true) with
  | (Except.error _, w1) => (Except.ok (), w1)
  | (Except.ok v, w1) => (Except.ok (), repopulateAccounts w1 v)

/-- The fixed allow-list of eagerly loaded symbols. -/
def COMMON_SYMBOLS : List String := ["MES", "MNQ", "MYM", "M2K", "MGC", "MCL", "MBT", "MET"]

/-- One iteration of the `loadContracts` loop: one `/Contract/search`
call for `symbol`; cache the first match when the result is a non-empty
array; swallow any error. -/
def loadContractsStep (w : World) (symbol : String) : World :=
  match topstepxRequest w "/Contract/search" (ReqBody.contractSearch symbol false) with
  | (Except.error _, w1) => w1
  | (Except.ok v, w1) =>
    match firstContract v with
    | some c =>
      { w1 with
        contractsCache := recordSet w1.contractsCache symbol c
        symbolToContractIdMap := recordSet w1.symbolToContractIdMap symbol c.id }
    | none => w1

/-- `loadContracts` (`src/data.ts:56`): clear both contract maps, then
fetch each allow-listed symbol, each failure caught individually; never
throws. -/
def loadContracts (w : World) : Except JsError Unit × World :=
  let w0 := { w with contractsCache := [], symbolToContractIdMap := [] }
  (Except.ok (), COMMON_SYMBOLS.foldl loadContractsStep w0)

/-- `initializeData` (`src/data.ts:17`), also the body of the periodic
refresh: `loadAccounts` then `loadContracts`, rethrowing any error
(neither part can actually produce one). -/
def initializeData (w : World) : Except JsError Unit × World :=
  match loadAccounts w with
  | (Except.error e, w1) => (Except.error e, w1)
  | (Except.ok _, w1) =>
    match loadContracts w1 with
    | (Except.error e, w2) => (Except.error e, w2)
    | (Except.ok _, w2) => (Except.ok (), w2)

/-- The caching tail of `getContractBySymbol` (`src/data.ts:101`-`106`):
when the search result is a non-empty contract array, store the first
match in both contract maps and return it; otherwise fall through to
`null`. -/
def cacheFirstMatch (w1 : World) (symbol : String) (v : GatewayValue) :
    Option Contract × World :=
  match firstContract v with
  | some c =>
    (some c,
      { w1 with
        contractsCache := recordSet w1.contractsCache symbol c
        symbolToContractIdMap := recordSet w1.symbolToContractIdMap symbol c.id })
  | none => (none, w1)

/-- `getContractBySymbol` (`src/data.ts:88`), continued: return the
cached entry when present; otherwise one `/Contract/search` call, then
cache and return the first match; `null` on no match or on a
(swallowed) error. -/
def getContractBySymbol (w : World) (symbol : String) : Option Contract × World :=
  match recordGet w.contractsCache symbol with
  | some c => (some c, w)
  | none =>
    match topstepxRequest w "/Contract/search" (ReqBody.contractSearch symbol false) with
    | (Except.error _, w1) => (none, w1)
    | (Except.ok v, w1) => cacheFirstMatch w1 symbol v

/-- `getPositions` (`src/data.ts:114`): a placeholder that returns an
empty array for every input, with no remote call. -/
def getPositions (w : World) (accountId : Option Nat) : Except JsError (List Position) × World :=
  (Except.ok [], w)

/-- `getOrders` (`src/data.ts:126`): a placeholder that returns an empty
array for every input, with no remote call. -/
def getOrders (w : World) (accountId : Option Nat) (onlyOpen : Bool) :
    Except JsError (List Order) × World :=
  (Except.ok [], w)

/-- `getDefaultAccountId` (`src/data.ts:138`): the id of
`Object.values(accountsCache)[0]`; integer record keys iterate in
ascending numeric order, so this is the account at the smallest key. -/
def getDefaultAccountId (w : World) : Option Nat :=
  match (w.accountsCache.map Prod.fst).min? with
  | none => none
  | some k => (recordGet w.accountsCache k).map Account.id

/-! ## Tool handlers (`src/tools.ts`)

Each handler body is wrapped in `try/catch`; the catch produces
`createErrorResult` with a stringified exception.  `createToolResult` /
`createErrorResult` become the constructors of `ToolResult`. -/

/-- The JSON data handed to `createToolResult`, one constructor per
handler success shape this development embeds. -/
inductive ToolPayload where
  | contract (c : Contract)
  | contractsFound (cs : List Contract) (count : Nat)
  | orderPlaced (resp : GatewayValue)
  | orderModified (resp : GatewayValue)
  | orderCancelled (resp : GatewayValue)
  | positionClosed (resp : GatewayValue)
  | barsResult (symbol : String) (barType : String) (resp : GatewayValue)
deriving Repr, DecidableEq

/-- A tool call result: `createToolResult` (success JSON) or
`createErrorResult` (error text with `isError: true`). -/
inductive ToolResult where
  | ok (p : ToolPayload)
  | err (msg : String)
deriving Repr, DecidableEq

/-- `${error}`: the string interpolation of a caught exception. -/
def errText : JsError → String
  | JsError.error m => "Error: " ++ m
  | JsError.http (some n) => "AxiosError: Request failed with status code " ++ toString n
  | JsError.http none => "AxiosError: Network Error"

/-- The arguments of a `place_order` invocation (absent = `undefined`). -/
structure PlaceOrderArgs where
  symbol : Option String := none
  side : Option String := none
  quantity : Option Int := none
  orderType : Option String := none
  price : Option Int := none
  stopPrice : Option Int := none
  accountId : Option Nat := none
  timeInForce : Option String := none
deriving Repr, DecidableEq

/-- The `PlaceOrderRequest` body that `handlePlaceOrder` sends: price /
stop-price are attached only for the order types that use them. -/
def buildOrderRequest (args : PlaceOrderArgs) (contract : Contract) (accountId : Nat) :
    PlaceOrderRequest :=
  { accountId := accountId
    contractId := contract.id
    side := args.side.getD ""
    orderType := args.orderType.getD "Market"
    quantity := args.quantity.getD 0
    timeInForce := args.timeInForce.getD "Day"
    price :=
      if args.orderType.getD "Market" = "Limit" ∨ args.orderType.getD "Market" = "StopLimit" then
        args.price
      else none
    stopPrice :=
      if args.orderType.getD "Market" = "Stop" ∨ args.orderType.getD "Market" = "StopLimit" then
        args.stopPrice
      else none }

/-- `handlePlaceOrder` (`src/tools.ts`), continued: required-argument
check, then contract resolution (possibly a remote search), account
defaulting, price / stop-price validation for the relevant order types,
then the `/Order/place` call. -/
def handlePlaceOrder (w : World) (args : PlaceOrderArgs) : ToolResult × World :=
  if ¬ (truthyStr args.symbol ∧ truthyStr args.side ∧ truthyInt args.quantity) then
    (ToolResult.err "Symbol, side, and quantity are required", w)
  else
    match getContractBySymbol w (args.symbol.getD "") with
    | (none, w1) => (ToolResult.err ("Contract not found: " ++ args.symbol.getD ""), w1)
    | (some contract, w1) =>
      if truthyNat (if truthyNat args.accountId then args.accountId else getDefaultAccountId w1)
          = false then
        (ToolResult.err "No account ID provided and no default account available", w1)
      else if (args.orderType.getD "Market" = "Limit" ∨
            args.orderType.getD "Market" = "StopLimit") ∧ truthyInt args.price = false then
        (ToolResult.err "Price is required for Limit orders", w1)
      else if (args.orderType.getD "Market" = "Stop" ∨
            args.orderType.getD "Market" = "StopLimit") ∧ truthyInt args.stopPrice = false then
        (ToolResult.err "Stop price is required for Stop orders", w1)
      else
        match topstepxRequest w1 "/Order/place"
            (ReqBody.order (buildOrderRequest args contract
              ((if truthyNat args.accountId then args.accountId
                else getDefaultAccountId w1).getD 0))) with
        | (Except.error e, w2) => (ToolResult.err ("Failed to place order: " ++ errText e), w2)
        | (Except.ok v, w2) => (ToolResult.ok (ToolPayload.orderPlaced v), w2)

/-- The arguments of a `close_position` invocation. -/
structure ClosePositionArgs where
  symbol : Option String := none
  accountId : Option Nat := none
  quantity : Option Int := none
deriving Repr, DecidableEq

/-- `handleClosePosition` (`src/tools.ts`): symbol check, contract
resolution, then a search of `getPositions` for the symbol; without a
matching position it reports "No open position found"; otherwise it
posts `/Position/close-partial`. -/
def handleClosePosition (w : World) (args : ClosePositionArgs) : ToolResult × World :=
  if truthyStr args.symbol = false then
    (ToolResult.err "Symbol is required", w)
  else
    match getContractBySymbol w (args.symbol.getD "") with
    | (none, w1) => (ToolResult.err ("Contract not found: " ++ args.symbol.getD ""), w1)
    | (some _, w1) =>
      match getPositions w1 args.accountId with
      | (Except.error e, w2) => (ToolResult.err ("Failed to close position: " ++ errText e), w2)
      | (Except.ok positions, w2) =>
        match positions.find? (fun p => p.symbol = args.symbol.getD "") with
        | none => (ToolResult.err ("No open position found for " ++ args.symbol.getD ""), w2)
        | some position =>
          match topstepxRequest w2 "/Position/close-partial"
              (ReqBody.closePartial position.id
                (if truthyInt args.quantity then args.quantity.getD 0
                 else position.quantity)) with
          | (Except.error e, w3) =>
            (ToolResult.err ("Failed to close position: " ++ errText e), w3)
          | (Except.ok v, w3) => (ToolResult.ok (ToolPayload.positionClosed v), w3)

/-- `handleGetContractDetails` (`src/tools.ts`): symbol check, then the
read-through contract lookup. -/
def handleGetContractDetails (w : World) (symbol : Option String) : ToolResult × World :=
  if truthyStr symbol = false then
    (ToolResult.err "Symbol is required", w)
  else
    match getContractBySymbol w (symbol.getD "") with
    | (none, w1) => (ToolResult.err ("Contract not found: " ++ symbol.getD ""), w1)
    | (some c, w1) => (ToolResult.ok (ToolPayload.contract c), w1)

/-- `handleSearchContracts` (`src/tools.ts`): searchText check, one
`/Contract/search` call, then `contracts.slice(0, limit)`; a non-array
result makes `.slice` throw a TypeError which the catch turns into an
error result. -/
def handleSearchContracts (w : World) (searchText : Option String) (limit : Option Nat) :
    ToolResult × World :=
  if truthyStr searchText = false then
    (ToolResult.err "Search text is required", w)
  else
    match topstepxRequest w "/Contract/search"
        (ReqBody.contractSearch (searchText.getD "") false) with
    | (Except.error e, w1) => (ToolResult.err ("Failed to search contracts: " ++ errText e), w1)
    | (Except.ok v, w1) =>
      match v with
      | GatewayValue.ofVal (Value.contracts cs) =>
        (ToolResult.ok (ToolPayload.contractsFound (cs.take (limit.getD 10)) cs.length), w1)
      | _ =>
        (ToolResult.err
          "Failed to search contracts: TypeError: contracts.slice is not a function", w1)

/-- `handleCancelOrder` (`src/tools.ts`): orderId check, then the
`/Order/cancel` call. -/
def handleCancelOrder (w : World) (orderId : Option Nat) : ToolResult × World :=
  if truthyNat orderId = false then
    (ToolResult.err "Order ID is required", w)
  else
    match topstepxRequest w "/Order/cancel" (ReqBody.cancel (orderId.getD 0)) with
    | (Except.error e, w1) => (ToolResult.err ("Failed to cancel order: " ++ errText e), w1)
    | (Except.ok v, w1) => (ToolResult.ok (ToolPayload.orderCancelled v), w1)

/-- The arguments of a `modify_order` invocation. -/
structure ModifyOrderArgs where
  orderId : Option Nat := none
  quantity : Option Int := none
  price : Option Int := none
  stopPrice : Option Int := none
deriving Repr, DecidableEq

/-- `handleModifyOrder` (`src/tools.ts`): orderId check; the optional
fields are attached when not `undefined` (a `!== undefined` test, not a
truthiness test); then the `/Order/modify` call. -/
def handleModifyOrder (w : World) (args : ModifyOrderArgs) : ToolResult × World :=
  if truthyNat args.orderId = false then
    (ToolResult.err "Order ID is required", w)
  else
    let modifyRequest : ModifyOrderRequest :=
      { orderId := args.orderId.getD 0
        quantity := args.quantity
        price := args.price
        stopPrice := args.stopPrice }
    match topstepxRequest w "/Order/modify" (ReqBody.modify modifyRequest) with
    | (Except.error e, w1) => (ToolResult.err ("Failed to modify order: " ++ errText e), w1)
    | (Except.ok v, w1) => (ToolResult.ok (ToolPayload.orderModified v), w1)

/-- The arguments of a `get_bars` invocation. -/
structure GetBarsArgs where
  symbol : Option String := none
  startTime : Option String := none
  endTime : Option String := none
  barType : Option String := none
deriving Repr, DecidableEq

/-- `handleGetBars` (`src/tools.ts`): required-argument check, contract
resolution, then the `/MarketData/retrieve-bars` call. -/
def handleGetBars (w : World) (args : GetBarsArgs) : ToolResult × World :=
  if ¬ (truthyStr args.symbol ∧ truthyStr args.startTime ∧ truthyStr args.endTime) then
    (ToolResult.err "Symbol, startTime, and endTime are required", w)
  else
    match getContractBySymbol w (args.symbol.getD "") with
    | (none, w1) => (ToolResult.err ("Contract not found: " ++ args.symbol.getD ""), w1)
    | (some contract, w1) =>
      match topstepxRequest w1 "/MarketData/retrieve-bars"
          (ReqBody.retrieveBars contract.id (args.startTime.getD "") (args.endTime.getD "")
            (args.barType.getD "1min")) with
      | (Except.error e, w2) => (ToolResult.err ("Failed to get bars: " ++ errText e), w2)
      | (Except.ok v, w2) =>
        (ToolResult.ok (ToolPayload.barsResult (args.symbol.getD "") (args.barType.getD "1min") v),
         w2)

/-! ## Shared facts and sample data -/

/-- A session that needs no re-login at time `now`: truthy token,
unexpired, axios instance built. -/
def validSession (w : World) : Prop :=
  truthyStr w.session.authToken = true ∧
  expiryPassed w.session.tokenExpiry w.now = false ∧
  w.session.axiosInstance = true

/-- The fields of the world that an HTTP attempt leaves untouched. -/
def sameData (w w' : World) : Prop :=
  w'.env = w.env ∧ w'.now = w.now ∧ w'.accountsCache = w.accountsCache ∧
  w'.contractsCache = w.contractsCache ∧ w'.symbolToContractIdMap = w.symbolToContractIdMap

/-- The call log of `w'` extends that of `w` with calls whose paths all
lie in `ps`. -/
def callsExtend (w w' : World) (ps : List String) : Prop :=
  ∃ l, w'.calls = w.calls ++ l ∧ ∀ c ∈ l, c.1 ∈ ps

/-- The world after one HTTP attempt consumed the script head: the
remainder of the script and the logged call. -/
def wAfterCall (w : World) (path : String) (body : ReqBody) (rest : List HttpOutcome) : World :=
  { w with remote := rest, calls := w.calls ++ [(path, body)] }

/-- Sample contract for concrete scenarios. -/
def mesContract : Contract :=
  { id := 101, symbol := "MES", name := "Micro E-mini S&P 500", exchange := "CME"
    tickSize := 1, pointValue := 5, minQuantity := 1, maxQuantity := 100
    tradingHours := "RTH" }

/-- Sample account for concrete scenarios. -/
def demoAccount : Account :=
  { id := 7, name := "demo", balance := 1000, canTrade := true, isVisible := true
    simulated := true }

/-- A second sample account. -/
def mesAccount : Account :=
  { id := 9, name := "second", balance := 2000, canTrade := true, isVisible := true
    simulated := false }

/-- Environment with full credentials. -/
def fullEnv : Env :=
  { environmentVar := some "demo", topstepxUsername := some "user"
    projectxUsername := none, topstepxApiKey := some "key", projectxApiKey := none }

/-- A session valid at time 500. -/
def liveSession : Session :=
  { authToken := some "tok", tokenExpiry := some 1000000, axiosInstance := true }

/-- A concrete world with a valid session, one cached account and the
cached MES contract, parameterized by the remote script. -/
def sampleWorld (script : List HttpOutcome) : World :=
  { env := fullEnv, now := 500, session := liveSession, remote := script, calls := []
    accountsCache := [(7, demoAccount)], contractsCache := [("MES", mesContract)]
    symbolToContractIdMap := [("MES", 101)] }

/-- A successful login response body. -/
def authOkBody : Body :=
  { success := some true, token := some "tok2", errorMessage := none, data := none
    accounts := none }

/-- A world with a valid session but no credentials in the environment. -/
def noCredsWorld : World :=
  { env := { environmentVar := some "demo", topstepxUsername := none, projectxUsername := none
             topstepxApiKey := none, projectxApiKey := none }
    now := 500, session := liveSession, remote := [], calls := []
    accountsCache := [], contractsCache := [], symbolToContractIdMap := [] }

/-- A world with no session yet, full credentials, and a successful
login reply queued. -/
def loginWorld : World :=
  { env := fullEnv, now := 500
    session := { authToken := none, tokenExpiry := none, axiosInstance := false }
    remote := [HttpOutcome.ok authOkBody], calls := []
    accountsCache := [], contractsCache := [], symbolToContractIdMap := [] }

/-- A world with a valid session, one cached account, an empty contract
cache, and a contract-search reply queued: the uncached-symbol
place_order scenario. -/
def uncachedWorld : World :=
  { env := fullEnv, now := 500, session := liveSession
    remote := [HttpOutcome.ok
      { success := some true, token := none, errorMessage := none
        data := some (Value.contracts [mesContract]), accounts := none }]
    calls := [], accountsCache := [(7, demoAccount)], contractsCache := []
    symbolToContractIdMap := [] }

/-! ## Record and frame lemmas -/

theorem ensureAuthenticated_of_valid (w : World) (hv : validSession w) :
    ensureAuthenticated w = (Except.ok (), w) := by
  obtain ⟨h1, h2, _⟩ := hv
  simp [ensureAuthenticated, h1, h2]

theorem find?_map_replace {κ α : Type} [DecidableEq κ] (m : List (κ × α)) (k : κ) (v : α) :
    (m.map (fun p => if p.1 = k then (k, v) else p)).find? (fun p => p.1 = k) =
      if m.any (fun p => p.1 = k) then some (k, v) else none := by
  induction m with
  | nil => simp
  | cons p t ih =>
    by_cases hp : p.1 = k
    · simp [List.find?_cons, hp]
    · simp only [List.map_cons, List.find?_cons, List.any_cons, if_neg hp]
      simp only [show decide (p.1 = k) = false from decide_eq_false hp]
      simp [ih]
      simp only [Bool.false_or]

/-- Writing a key then reading it back yields the written value. -/
theorem recordGet_set_self {κ α : Type} [DecidableEq κ] (m : List (κ × α)) (k : κ) (v : α) :
    recordGet (recordSet m k v) k = some v := by
  by_cases h : m.any (fun p => p.1 = k)
  · unfold recordSet
    rw [if_pos h]
    unfold recordGet
    rw [find?_map_replace, if_pos h]
    rfl
  · have hnone : m.find? (fun p => p.1 = k) = none := by
      rw [List.find?_eq_none]
      intro x hx
      have := (List.any_eq_false.mp (Bool.not_eq_true _ ▸ h : m.any (fun p => p.1 = k) = false)) x hx
      simpa using this
    unfold recordSet
    rw [if_neg h]
    unfold recordGet
    rw [List.find?_append, hnone]
    simp [List.find?_cons]

theorem sameData_refl (w : World) : sameData w w := ⟨rfl, rfl, rfl, rfl, rfl⟩

theorem sameData_trans {w1 w2 w3 : World} (h1 : sameData w1 w2) (h2 : sameData w2 w3) :
    sameData w1 w3 := by
  obtain ⟨a1, b1, c1, d1, e1⟩ := h1
  obtain ⟨a2, b2, c2, d2, e2⟩ := h2
  exact ⟨a2.trans a1, b2.trans b1, c2.trans c1, d2.trans d1, e2.trans e1⟩

theorem issueHttp_frame (w : World) (p : String) (b : ReqBody) :
    sameData w (issueHttp w p b).2 ∧
    (issueHttp w p b).2.calls = w.calls ++ [(p, b)] ∧
    (issueHttp w p b).2.session = w.session := by
  unfold issueHttp
  cases w.remote <;> exact ⟨⟨rfl, rfl, rfl, rfl, rfl⟩, rfl, rfl⟩

theorem authenticate_frame (w : World) :
    sameData w (authenticate w).2 ∧ callsExtend w (authenticate w).2 ["/Auth/loginKey"] := by
  unfold authenticate
  split
  · exact ⟨sameData_refl w, [], by simp, by simp⟩
  · rcases hi : issueHttp w "/Auth/loginKey"
        (ReqBody.loginKey ((credUsername w.env).getD "") ((credApiKey w.env).getD "")) with ⟨o, w1⟩
    have hf := issueHttp_frame w "/Auth/loginKey"
      (ReqBody.loginKey ((credUsername w.env).getD "") ((credApiKey w.env).getD ""))
    rw [hi] at hf
    have hcalls : callsExtend w w1 ["/Auth/loginKey"] :=
      ⟨[("/Auth/loginKey",
          ReqBody.loginKey ((credUsername w.env).getD "") ((credApiKey w.env).getD ""))],
        hf.2.1, by simp⟩
    cases o with
    | err s =>
      simp only [hi]
      exact ⟨hf.1, hcalls⟩
    | ok bdy =>
      simp only [hi]
      split
      · obtain ⟨a, b', c, d, e⟩ := hf.1
        obtain ⟨l, hl1, hl2⟩ := hcalls
        exact ⟨⟨a, b', c, d, e⟩, l, hl1, hl2⟩
      · exact ⟨hf.1, hcalls⟩

theorem callsExtend_mono {w w' : World} {ps qs : List String}
    (h : callsExtend w w' ps) (hsub : ∀ p ∈ ps, p ∈ qs) : callsExtend w w' qs := by
  obtain ⟨l, h1, h2⟩ := h
  exact ⟨l, h1, fun c hc => hsub c.1 (h2 c hc)⟩

theorem callsExtend_trans {w1 w2 w3 : World} {ps : List String}
    (h1 : callsExtend w1 w2 ps) (h2 : callsExtend w2 w3 ps) : callsExtend w1 w3 ps := by
  obtain ⟨l1, e1, m1⟩ := h1
  obtain ⟨l2, e2, m2⟩ := h2
  refine ⟨l1 ++ l2, by rw [e2, e1, List.append_assoc], ?_⟩
  intro c hc
  rcases List.mem_append.mp hc with h | h
  · exact m1 c h
  · exact m2 c h

theorem ensureAuthenticated_frame (w : World) :
    sameData w (ensureAuthenticated w).2 ∧
    callsExtend w (ensureAuthenticated w).2 ["/Auth/loginKey"] := by
  unfold ensureAuthenticated
  split
  · exact authenticate_frame w
  · exact ⟨sameData_refl w, [], by simp, by simp⟩

theorem retryAttempt_frame (w4 : World) (path : String) (body : ReqBody) :
    sameData w4 (retryAttempt w4 path body).2 ∧
    callsExtend w4 (retryAttempt w4 path body).2 [path, "/Auth/loginKey"] := by
  unfold retryAttempt
  rcases hi2 : issueHttp w4 path body with ⟨o2, w5⟩
  have hif2b := issueHttp_frame w4 path body
  rw [hi2] at hif2b
  have calls : callsExtend w4 w5 [path, "/Auth/loginKey"] := ⟨[(path, body)], hif2b.2.1, by simp⟩
  cases o2 with
  | ok b2 => exact ⟨hif2b.1, calls⟩
  | err s2 => exact ⟨hif2b.1, calls⟩

theorem requestRetry_frame (w2 : World) (path : String) (body : ReqBody) :
    sameData w2 (requestRetry w2 path body).2 ∧
    callsExtend w2 (requestRetry w2 path body).2 [path, "/Auth/loginKey"] := by
  unfold requestRetry
  rcases ha : authenticate { w2 with session := { w2.session with authToken := none } }
    with ⟨ra, w4⟩
  have haf := authenticate_frame { w2 with session := { w2.session with authToken := none } }
  rw [ha] at haf
  have haf1 : sameData w2 w4 := haf.1
  have haf2 : callsExtend w2 w4 [path, "/Auth/loginKey"] :=
    callsExtend_mono haf.2 (by intro p hp; simp at hp; simp [hp])
  cases ra with
  | error e => exact ⟨haf1, haf2⟩
  | ok u2 =>
    have hr := retryAttempt_frame w4 path body
    exact ⟨sameData_trans haf1 hr.1, callsExtend_trans haf2 hr.2⟩

theorem requestAttempt_frame (w1 : World) (path : String) (body : ReqBody) :
    sameData w1 (requestAttempt w1 path body).2 ∧
    callsExtend w1 (requestAttempt w1 path body).2 [path, "/Auth/loginKey"] := by
  unfold requestAttempt
  rcases hi : issueHttp w1 path body with ⟨o, w2⟩
  have hif := issueHttp_frame w1 path body
  rw [hi] at hif
  have hif2 : callsExtend w1 w2 [path, "/Auth/loginKey"] := ⟨[(path, body)], hif.2.1, by simp⟩
  cases o with
  | ok b => exact ⟨hif.1, hif2⟩
  | err s =>
    show sameData w1 (if s = some 401 then requestRetry w2 path body
        else (Except.error (JsError.http s), w2)).2 ∧
      callsExtend w1 (if s = some 401 then requestRetry w2 path body
        else (Except.error (JsError.http s), w2)).2 [path, "/Auth/loginKey"]
    by_cases h401 : s = some 401
    · rw [if_pos h401]
      have hr := requestRetry_frame w2 path body
      exact ⟨sameData_trans hif.1 hr.1, callsExtend_trans hif2 hr.2⟩
    · rw [if_neg h401]
      exact ⟨hif.1, hif2⟩

theorem topstepxRequest_frame (w : World) (path : String) (body : ReqBody) :
    sameData w (topstepxRequest w path body).2 ∧
    callsExtend w (topstepxRequest w path body).2 [path, "/Auth/loginKey"] := by
  unfold topstepxRequest
  rcases he : ensureAuthenticated w with ⟨r, w1⟩
  have hef := ensureAuthenticated_frame w
  rw [he] at hef
  have hef2 : callsExtend w w1 [path, "/Auth/loginKey"] :=
    callsExtend_mono hef.2 (by intro p hp; simp at hp; simp [hp])
  cases r with
  | error e => exact ⟨hef.1, hef2⟩
  | ok u =>
    show sameData w (if w1.session.axiosInstance = false
        then (Except.error (JsError.error "Not authenticated"), w1)
        else requestAttempt w1 path body).2 ∧
      callsExtend w (if w1.session.axiosInstance = false
        then (Except.error (JsError.error "Not authenticated"), w1)
        else requestAttempt w1 path body).2 [path, "/Auth/loginKey"]
    by_cases hax : w1.session.axiosInstance = false
    · rw [if_pos hax]
      exact ⟨hef.1, hef2⟩
    · rw [if_neg hax]
      have hr := requestAttempt_frame w1 path body
      exact ⟨sameData_trans hef.1 hr.1, callsExtend_trans hef2 hr.2⟩

theorem cacheFirstMatch_frame (w1 : World) (symbol : String) (v : GatewayValue) :
    (cacheFirstMatch w1 symbol v).2.env = w1.env ∧
    (cacheFirstMatch w1 symbol v).2.now = w1.now ∧
    (cacheFirstMatch w1 symbol v).2.accountsCache = w1.accountsCache ∧
    (cacheFirstMatch w1 symbol v).2.calls = w1.calls := by
  unfold cacheFirstMatch
  cases firstContract v <;> exact ⟨rfl, rfl, rfl, rfl⟩

theorem getContractBySymbol_frame (w : World) (symbol : String) :
    (getContractBySymbol w symbol).2.env = w.env ∧
    (getContractBySymbol w symbol).2.now = w.now ∧
    (getContractBySymbol w symbol).2.accountsCache = w.accountsCache ∧
    callsExtend w (getContractBySymbol w symbol).2 ["/Contract/search", "/Auth/loginKey"] := by
  unfold getContractBySymbol
  split
  · exact ⟨rfl, rfl, rfl, [], by simp, by simp⟩
  · rcases hr : topstepxRequest w "/Contract/search" (ReqBody.contractSearch symbol false)
      with ⟨r, w1⟩
    have hf := topstepxRequest_frame w "/Contract/search" (ReqBody.contractSearch symbol false)
    rw [hr] at hf
    obtain ⟨⟨he, hn, ha, _, _⟩, hc⟩ := hf
    have he1 : w1.env = w.env := he
    have hn1 : w1.now = w.now := hn
    have ha1 : w1.accountsCache = w.accountsCache := ha
    have hc1 : callsExtend w w1 ["/Contract/search", "/Auth/loginKey"] := hc
    cases r with
    | error e => exact ⟨he1, hn1, ha1, hc1⟩
    | ok v =>
      have hcf := cacheFirstMatch_frame w1 symbol v
      obtain ⟨l, hl, hm⟩ := hc1
      exact ⟨hcf.1.trans he1, hcf.2.1.trans hn1, hcf.2.2.1.trans ha1,
        l, by rw [hcf.2.2.2, hl], hm⟩

/-! ## Script step lemmas -/

theorem issueHttp_eq {w : World} {o : HttpOutcome} {rest : List HttpOutcome}
    (path : String) (body : ReqBody) (h : w.remote = o :: rest) :
    issueHttp w path body = (o, wAfterCall w path body rest) := by
  simp [issueHttp, wAfterCall, h]

theorem topstepxRequest_of_valid (w : World) (path : String) (body : ReqBody)
    (hv : validSession w) :
    topstepxRequest w path body = requestAttempt w path body := by
  obtain ⟨h1, h2, h3⟩ := hv
  unfold topstepxRequest
  rw [ensureAuthenticated_of_valid w ⟨h1, h2, h3⟩]
  simp [h3]

theorem requestAttempt_ok {w : World} {b : Body} {rest : List HttpOutcome}
    (path : String) (body : ReqBody) (h : w.remote = HttpOutcome.ok b :: rest) :
    requestAttempt w path body = (normalizeBody b, wAfterCall w path body rest) := by
  unfold requestAttempt
  rw [issueHttp_eq path body h]

theorem requestAttempt_err {w : World} {s : Option Nat} {rest : List HttpOutcome}
    (path : String) (body : ReqBody) (h : w.remote = HttpOutcome.err s :: rest)
    (h401 : s ≠ some 401) :
    requestAttempt w path body = (Except.error (JsError.http s), wAfterCall w path body rest) := by
  unfold requestAttempt
  rw [issueHttp_eq path body h]
  simp [h401]

theorem requestAttempt_401 {w : World} {rest : List HttpOutcome}
    (path : String) (body : ReqBody) (h : w.remote = HttpOutcome.err (some 401) :: rest) :
    requestAttempt w path body = requestRetry (wAfterCall w path body rest) path body := by
  unfold requestAttempt
  rw [issueHttp_eq path body h]
  simp

theorem authenticate_no_creds (w : World)
    (h : truthyStr (credUsername w.env) = false ∨ truthyStr (credApiKey w.env) = false) :
    authenticate w = (Except.error (JsError.error missingCredsMsg), w) := by
  unfold authenticate
  rcases h with h | h <;> simp [h]

theorem authenticate_ok {w : World} {b : Body} {rest : List HttpOutcome}
    (hcu : truthyStr (credUsername w.env) = true) (hck : truthyStr (credApiKey w.env) = true)
    (h : w.remote = HttpOutcome.ok b :: rest)
    (hs : b.success = some true) (ht : truthyStr b.token = true) :
    authenticate w = (Except.ok (),
      { wAfterCall w "/Auth/loginKey"
          (ReqBody.loginKey ((credUsername w.env).getD "") ((credApiKey w.env).getD "")) rest with
        session :=
          { authToken := b.token
            tokenExpiry := some (w.now + 24 * 60 * 60 * 1000)
            axiosInstance := true } }) := by
  unfold authenticate
  rw [issueHttp_eq _ _ h]
  simp [hcu, hck, hs, ht, wAfterCall]

theorem authenticate_bad_body {w : World} {b : Body} {rest : List HttpOutcome}
    (hcu : truthyStr (credUsername w.env) = true) (hck : truthyStr (credApiKey w.env) = true)
    (h : w.remote = HttpOutcome.ok b :: rest)
    (hbad : ¬ (b.success = some true ∧ truthyStr b.token = true)) :
    authenticate w = (Except.error (JsError.error (strOrD b.errorMessage "Authentication failed")),
      wAfterCall w "/Auth/loginKey"
        (ReqBody.loginKey ((credUsername w.env).getD "") ((credApiKey w.env).getD "")) rest) := by
  unfold authenticate
  rw [issueHttp_eq _ _ h]
  simp [hcu, hck, hbad]

theorem authenticate_http_err {w : World} {s : Option Nat} {rest : List HttpOutcome}
    (hcu : truthyStr (credUsername w.env) = true) (hck : truthyStr (credApiKey w.env) = true)
    (h : w.remote = HttpOutcome.err s :: rest) :
    authenticate w = (Except.error (JsError.http s),
      wAfterCall w "/Auth/loginKey"
        (ReqBody.loginKey ((credUsername w.env).getD "") ((credApiKey w.env).getD "")) rest) := by
  unfold authenticate
  rw [issueHttp_eq _ _ h]
  simp [hcu, hck]

theorem requestRetry_eq (w2 : World) (path : String) (body : ReqBody) :
    requestRetry w2 path body =
      match authenticate { w2 with session := { w2.session with authToken := none } } with
      | (Except.error e, w4) => (Except.error e, w4)
      | (Except.ok _, w4) => retryAttempt w4 path body := rfl

theorem retryAttempt_ok {w4 : World} {b : Body} {rest : List HttpOutcome}
    (path : String) (body : ReqBody) (h : w4.remote = HttpOutcome.ok b :: rest) :
    retryAttempt w4 path body = (retryNormalizeBody b, wAfterCall w4 path body rest) := by
  unfold retryAttempt
  rw [issueHttp_eq path body h]

theorem retryAttempt_err {w4 : World} {s : Option Nat} {rest : List HttpOutcome}
    (path : String) (body : ReqBody) (h : w4.remote = HttpOutcome.err s :: rest) :
    retryAttempt w4 path body = (Except.error (JsError.http s), wAfterCall w4 path body rest) := by
  unfold retryAttempt
  rw [issueHttp_eq path body h]

theorem requestRetry_authok (w2 : World) (path : String) (body : ReqBody)
    (ab : Body) (r2 : HttpOutcome) (rest : List HttpOutcome)
    (hcu : truthyStr (credUsername w2.env) = true)
    (hck : truthyStr (credApiKey w2.env) = true)
    (hrem : w2.remote = HttpOutcome.ok ab :: r2 :: rest)
    (hs : ab.success = some true) (ht : truthyStr ab.token = true) :
    requestRetry w2 path body =
      ((match r2 with
        | HttpOutcome.ok b2 => retryNormalizeBody b2
        | HttpOutcome.err s2 => Except.error (JsError.http s2)),
       { w2 with
           remote := rest
           calls := w2.calls ++ [
             ("/Auth/loginKey", ReqBody.loginKey ((credUsername w2.env).getD "")
                 ((credApiKey w2.env).getD "")),
             (path, body)]
           session :=
             { authToken := ab.token
               tokenExpiry := some (w2.now + 24 * 60 * 60 * 1000)
               axiosInstance := true } }) := by
  unfold requestRetry
  have hA : authenticate { w2 with session := { w2.session with authToken := none } } =
      (Except.ok (),
        { wAfterCall { w2 with session := { w2.session with authToken := none } }
            "/Auth/loginKey"
            (ReqBody.loginKey
              ((credUsername ({ w2 with session := { w2.session with authToken := none } } :
                  World).env).getD "")
              ((credApiKey ({ w2 with session := { w2.session with authToken := none } } :
                  World).env).getD ""))
            (r2 :: rest) with
          session :=
            { authToken := ab.token
              tokenExpiry := some (({ w2 with session := { w2.session with authToken := none } } :
                  World).now + 24 * 60 * 60 * 1000)
              axiosInstance := true } }) :=
    authenticate_ok hcu hck hrem hs ht
  rw [hA]
  cases r2 with
  | ok b2 => simp [retryAttempt, issueHttp, wAfterCall]
  | err s2 => simp [retryAttempt, issueHttp, wAfterCall]

theorem topstepxRequest_401_authok (w : World) (path : String) (body : ReqBody)
    (ab : Body) (r2 : HttpOutcome) (rest : List HttpOutcome)
    (hv : validSession w)
    (hrem : w.remote = HttpOutcome.err (some 401) :: HttpOutcome.ok ab :: r2 :: rest)
    (hcu : truthyStr (credUsername w.env) = true)
    (hck : truthyStr (credApiKey w.env) = true)
    (hs : ab.success = some true) (ht : truthyStr ab.token = true) :
    topstepxRequest w path body =
      ((match r2 with
        | HttpOutcome.ok b2 => retryNormalizeBody b2
        | HttpOutcome.err s2 => Except.error (JsError.http s2)),
       { w with
           remote := rest
           calls := w.calls ++ [(path, body),
             ("/Auth/loginKey", ReqBody.loginKey ((credUsername w.env).getD "")
                 ((credApiKey w.env).getD "")),
             (path, body)]
           session :=
             { authToken := ab.token
               tokenExpiry := some (w.now + 24 * 60 * 60 * 1000)
               axiosInstance := true } }) := by
  rw [topstepxRequest_of_valid w path body hv, requestAttempt_401 path body hrem]
  rw [requestRetry_authok (wAfterCall w path body (HttpOutcome.ok ab :: r2 :: rest))
    path body ab r2 rest hcu hck rfl hs ht]
  cases r2 with
  | ok b2 => simp [wAfterCall]
  | err s2 => simp [wAfterCall]

theorem requestRetry_auth_httperr (w2 : World) (path : String) (body : ReqBody)
    (s2 : Option Nat) (rest : List HttpOutcome)
    (hcu : truthyStr (credUsername w2.env) = true)
    (hck : truthyStr (credApiKey w2.env) = true)
    (hrem : w2.remote = HttpOutcome.err s2 :: rest) :
    requestRetry w2 path body =
      (Except.error (JsError.http s2),
       { w2 with
           remote := rest
           calls := w2.calls ++ [
             ("/Auth/loginKey", ReqBody.loginKey ((credUsername w2.env).getD "")
                 ((credApiKey w2.env).getD ""))]
           session := { w2.session with authToken := none } }) := by
  unfold requestRetry
  have hA : authenticate { w2 with session := { w2.session with authToken := none } } =
      (Except.error (JsError.http s2),
        wAfterCall { w2 with session := { w2.session with authToken := none } }
          "/Auth/loginKey"
          (ReqBody.loginKey
            ((credUsername ({ w2 with session := { w2.session with authToken := none } } :
                World).env).getD "")
            ((credApiKey ({ w2 with session := { w2.session with authToken := none } } :
                World).env).getD ""))
          rest) :=
    authenticate_http_err hcu hck hrem
  rw [hA]
  simp [wAfterCall]

theorem recordSet_fresh {κ α : Type} [DecidableEq κ] (m : List (κ × α)) (k : κ) (v : α)
    (h : m.any (fun p => p.1 = k) = false) : recordSet m k v = m ++ [(k, v)] := by
  unfold recordSet
  rw [if_neg]
  simp [h]

theorem foldl_recordSet_keyed (l : List Account) :
    ∀ m : List (Nat × Account),
      (∀ a ∈ l, m.any (fun p => p.1 = a.id) = false) →
      (l.map Account.id).Nodup →
      l.foldl (fun m a => recordSet m a.id a) m = m ++ l.map (fun a => (a.id, a)) := by
  induction l with
  | nil =>
    intro m _ _
    simp
  | cons a t ih =>
    intro m hdisj hnd
    simp only [List.map_cons, List.nodup_cons] at hnd
    simp only [List.foldl_cons]
    rw [recordSet_fresh m a.id a (hdisj a (by simp))]
    have hdisj2 : ∀ b ∈ t, (m ++ [(a.id, a)]).any (fun p => p.1 = b.id) = false := by
      intro b hb
      rw [List.any_append]
      have h1 := hdisj b (by simp [hb])
      have h2 : ([(a.id, a)].any (fun p => p.1 = b.id)) = false := by
        simp only [List.any_cons, List.any_nil, Bool.or_false]
        simp only [decide_eq_false_iff_not]
        intro heq
        exact hnd.1 (heq ▸ List.mem_map_of_mem Account.id hb)
      rw [h1, h2]
      rfl
    rw [ih (m ++ [(a.id, a)]) hdisj2 hnd.2]
    simp

theorem recordGet_keyed (l : List Account) (hnd : (l.map Account.id).Nodup)
    (i : Nat) (a : Account) :
    recordGet (l.map fun a => (a.id, a)) i = some a ↔ a ∈ l ∧ a.id = i := by
  induction l with
  | nil => simp [recordGet]
  | cons b t ih =>
    simp only [List.map_cons, List.nodup_cons] at hnd
    rw [List.map_cons]
    by_cases hbi : b.id = i
    · subst hbi
      have hb0 : recordGet ((b.id, b) :: t.map fun a => (a.id, a)) b.id = some b := by
        simp [recordGet, List.find?_cons]
      rw [hb0]
      constructor
      · intro h
        injection h with h
        subst h
        exact ⟨List.mem_cons_self _ _, rfl⟩
      · rintro ⟨hmem, hid⟩
        rcases List.mem_cons.mp hmem with rfl | hmem
        · rfl
        · exact absurd (show b.id ∈ t.map Account.id by
            rw [← hid]; exact List.mem_map_of_mem Account.id hmem) hnd.1
    · have hd : decide (b.id = i) = false := decide_eq_false hbi
      have hstep : recordGet ((b.id, b) :: t.map fun a => (a.id, a)) i
          = recordGet (t.map fun a => (a.id, a)) i := by
        simp [recordGet, List.find?_cons, hd]
      rw [hstep, ih hnd.2]
      constructor
      · rintro ⟨hmem, hid⟩
        exact ⟨List.mem_cons_of_mem b hmem, hid⟩
      · rintro ⟨hmem, hid⟩
        rcases List.mem_cons.mp hmem with rfl | hmem
        · exact absurd hid hbi
        · exact ⟨hmem, hid⟩

theorem loadContractsStep_accounts (w : World) (symbol : String) :
    (loadContractsStep w symbol).accountsCache = w.accountsCache := by
  unfold loadContractsStep
  rcases hr : topstepxRequest w "/Contract/search" (ReqBody.contractSearch symbol false)
    with ⟨r, w1⟩
  have hf := topstepxRequest_frame w "/Contract/search" (ReqBody.contractSearch symbol false)
  rw [hr] at hf
  have ha : w1.accountsCache = w.accountsCache := hf.1.2.2.1
  cases r with
  | error e => exact ha
  | ok v =>
    show (match firstContract v with
      | some c =>
        { w1 with
          contractsCache := recordSet w1.contractsCache symbol c
          symbolToContractIdMap := recordSet w1.symbolToContractIdMap symbol c.id }
      | none => w1).accountsCache = w.accountsCache
    cases firstContract v with
    | none => exact ha
    | some c => exact ha

theorem foldl_loadContractsStep_accounts (l : List String) :
    ∀ w : World, (l.foldl loadContractsStep w).accountsCache = w.accountsCache := by
  induction l with
  | nil => intro w; rfl
  | cons sym t ih =>
    intro w
    simp only [List.foldl_cons]
    rw [ih (loadContractsStep w sym), loadContractsStep_accounts]

/-! ## Claim theorems -/

/-- C8: position retrieval and order retrieval unconditionally return an
empty collection for every input (any accountId, any onlyOpen flag),
never raise an error, and leave the world — in particular the call
log — untouched. -/
theorem c8_positions_orders_always_empty (w : World) (accountId : Option Nat) (onlyOpen : Bool) :
    getPositions w accountId = (Except.ok [], w) ∧
    getOrders w accountId onlyOpen = (Except.ok [], w) :=
  ⟨rfl, rfl⟩

/-- C4 counterexample: with the environment flag absent the code
defaults the flag to "demo" and selects the first (topstepx) host, not
the third default host the claim assigns to "any other or absent
value". -/
theorem c4_absent_env_selects_first_host :
    getApiUrl {} = "https://api.topstepx.com/api" ∧
    getApiUrl {} ≠ "https://gateway-api-demo.s2f.projectx.com/api" := by
  refine ⟨rfl, ?_⟩
  decide

/-- C4 amended: base-URL selection is a pure three-way function of the
environment flag, where an absent or empty flag behaves like "demo":
"demo"/"topstepx"/absent/empty select the first host, "live" the
second, and any other non-empty value falls through to the third
default host. -/
theorem c4_three_way_url_selection (env : Env) :
    ((truthyStr env.environmentVar = false ∨
        env.environmentVar = some "demo" ∨ env.environmentVar = some "topstepx") →
      getApiUrl env = "https://api.topstepx.com/api") ∧
    (env.environmentVar = some "live" →
      getApiUrl env = "https://gateway-api.s2f.projectx.com/api") ∧
    ((truthyStr env.environmentVar = true ∧
        env.environmentVar ≠ some "demo" ∧ env.environmentVar ≠ some "topstepx" ∧
        env.environmentVar ≠ some "live") →
      getApiUrl env = "https://gateway-api-demo.s2f.projectx.com/api") := by
  refine ⟨?_, ?_, ?_⟩
  · rintro (h | h | h)
    · cases hvar : env.environmentVar with
      | none => simp [getApiUrl, strOrD, truthyStr, hvar]
      | some s =>
        rw [hvar] at h
        simp [truthyStr] at h
        simp [getApiUrl, strOrD, truthyStr, hvar, h]
    · simp [getApiUrl, strOrD, truthyStr, h]
    · simp [getApiUrl, strOrD, truthyStr, h]
  · intro h
    simp [getApiUrl, strOrD, truthyStr, h]
  · rintro ⟨h1, h2, h3, h4⟩
    cases hvar : env.environmentVar with
    | none => simp [hvar, truthyStr] at h1
    | some s =>
      simp [hvar, truthyStr] at h1 h2 h3 h4
      simp [getApiUrl, strOrD, truthyStr, hvar, h1, h2, h3, h4]

/-- C4 witness: the amended selection evaluated at the three concrete
flag values. -/
theorem c4_three_way_url_selection_witness :
    getApiUrl { environmentVar := some "live" } = "https://gateway-api.s2f.projectx.com/api" ∧
    getApiUrl { environmentVar := some "other" } =
      "https://gateway-api-demo.s2f.projectx.com/api" ∧
    getApiUrl { environmentVar := some "demo" } = "https://api.topstepx.com/api" :=
  ⟨(c4_three_way_url_selection _).2.1 rfl,
   (c4_three_way_url_selection _).2.2 (by refine ⟨rfl, ?_, ?_, ?_⟩ <;> decide),
   (c4_three_way_url_selection _).1 (Or.inr (Or.inl rfl))⟩

/-- C6: `getContractBySymbol` is an idempotent read-through.  For a
cached symbol it returns the cached entry with no HTTP attempt and no
state change.  For an uncached symbol (valid session, next remote reply
a 2xx body) it issues exactly one `/Contract/search` HTTP attempt; when
the normalized reply is a non-empty contract array the first match is
cached and returned, otherwise the result is absent.  Whenever a call
returns a contract, an immediately repeated call returns the same
contract with no further state change or remote call. -/
theorem c6_lookup_contract_read_through (w : World) (symbol : String) :
    (∀ c, recordGet w.contractsCache symbol = some c →
      getContractBySymbol w symbol = (some c, w)) ∧
    (∀ b rest, validSession w → recordGet w.contractsCache symbol = none →
      w.remote = HttpOutcome.ok b :: rest →
      getContractBySymbol w symbol =
        (match normalizeBody b with
         | Except.error _ =>
           (none, wAfterCall w "/Contract/search" (ReqBody.contractSearch symbol false) rest)
         | Except.ok v =>
           cacheFirstMatch
             (wAfterCall w "/Contract/search" (ReqBody.contractSearch symbol false) rest)
             symbol v)) ∧
    (∀ c ca, firstContract ca = some c →
      cacheFirstMatch (wAfterCall w "/Contract/search" (ReqBody.contractSearch symbol false) [])
          symbol ca =
        (some c, { wAfterCall w "/Contract/search" (ReqBody.contractSearch symbol false) [] with
          contractsCache := recordSet w.contractsCache symbol c
          symbolToContractIdMap := recordSet w.symbolToContractIdMap symbol c.id }) ∧
      firstContract GatewayValue.undef = none) ∧
    (∀ c w', getContractBySymbol w symbol = (some c, w') →
      getContractBySymbol w' symbol = (some c, w')) := by
  refine ⟨?_, ?_, ?_, ?_⟩
  · intro c h
    unfold getContractBySymbol
    rw [h]
  · intro b rest hv hnc hrem
    unfold getContractBySymbol
    rw [hnc]
    rw [topstepxRequest_of_valid w _ _ hv, requestAttempt_ok _ _ hrem]
    cases hb : normalizeBody b with
    | error e => rfl
    | ok v => rfl
  · intro c ca hfc
    refine ⟨?_, rfl⟩
    unfold cacheFirstMatch
    rw [hfc]
    rfl
  · intro c w' h
    unfold getContractBySymbol at h
    rcases hcc : recordGet w.contractsCache symbol with _ | c0
    · rw [hcc] at h
      rcases hr : topstepxRequest w "/Contract/search" (ReqBody.contractSearch symbol false)
        with ⟨r, w1⟩
      rw [hr] at h
      cases r with
      | error e => simp at h
      | ok v =>
        have h2 : cacheFirstMatch w1 symbol v = (some c, w') := h
        unfold cacheFirstMatch at h2
        cases hfc : firstContract v with
        | none =>
          rw [hfc] at h2
          simp at h2
        | some c1 =>
          rw [hfc] at h2
          simp only [Prod.mk.injEq, Option.some.injEq] at h2
          obtain ⟨hc1, hw'⟩ := h2
          subst hc1
          have hval : recordGet w'.contractsCache symbol = some c1 := by
            rw [← hw']
            exact recordGet_set_self w1.contractsCache symbol c1
          have hres : w' = { w1 with
              contractsCache := recordSet w1.contractsCache symbol c1
              symbolToContractIdMap := recordSet w1.symbolToContractIdMap symbol c1.id } :=
            hw'.symm
          unfold getContractBySymbol
          rw [hval]
    · rw [hcc] at h
      simp only [Prod.mk.injEq, Option.some.injEq] at h
      obtain ⟨hc0, hw'⟩ := h
      subst hc0
      subst hw'
      unfold getContractBySymbol
      rw [hcc]

/-- C6 witness: a cached MES lookup returns the cached contract with the
world unchanged, and re-running the lookup is stable. -/
theorem c6_lookup_contract_read_through_witness :
    getContractBySymbol (sampleWorld []) "MES" = (some mesContract, sampleWorld []) ∧
    getContractBySymbol (sampleWorld []) "MES" = (some mesContract, sampleWorld []) :=
  ⟨(c6_lookup_contract_read_through (sampleWorld []) "MES").1 mesContract (by rfl),
   (c6_lookup_contract_read_through (sampleWorld []) "MES").2.2.2 mesContract (sampleWorld [])
     ((c6_lookup_contract_read_through (sampleWorld []) "MES").1 mesContract (by rfl))⟩

/-- C7 counterexample: with a valid unexpired session,
`ensureAuthenticated` succeeds without consulting the (absent)
credentials — the claim's unconditional "fails whenever credentials are
absent" is false. -/
theorem c7_valid_session_ignores_missing_creds :
    truthyStr (credUsername noCredsWorld.env) = false ∧
    truthyStr (credApiKey noCredsWorld.env) = false ∧
    ensureAuthenticated noCredsWorld = (Except.ok (), noCredsWorld) := by
  refine ⟨rfl, rfl, ?_⟩
  simp [ensureAuthenticated, noCredsWorld, liveSession, expiryPassed, truthyStr]

/-- C7 amended: `ensureAuthenticated` performs a login call iff the
stored token is falsy, the expiry is null, or the expiry has passed;
with a valid session it succeeds without consulting credentials or the
remote.  When a login is needed: absent credentials fail with the
authentication error; with credentials present and a 2xx login reply
whose `success` and `token` are truthy, the token is stored and the
expiry set to exactly 24 hours after issuance. -/
theorem c7_ensure_authenticated_contract (w : World) :
    (truthyStr w.session.authToken = true → expiryPassed w.session.tokenExpiry w.now = false →
      ensureAuthenticated w = (Except.ok (), w)) ∧
    ((truthyStr w.session.authToken = false ∨ expiryPassed w.session.tokenExpiry w.now = true) →
      (truthyStr (credUsername w.env) = false ∨ truthyStr (credApiKey w.env) = false) →
      ensureAuthenticated w = (Except.error (JsError.error missingCredsMsg), w)) ∧
    (∀ b rest,
      (truthyStr w.session.authToken = false ∨ expiryPassed w.session.tokenExpiry w.now = true) →
      truthyStr (credUsername w.env) = true → truthyStr (credApiKey w.env) = true →
      w.remote = HttpOutcome.ok b :: rest →
      b.success = some true → truthyStr b.token = true →
      ensureAuthenticated w = (Except.ok (),
        { w with
            remote := rest
            calls := w.calls ++ [("/Auth/loginKey",
              ReqBody.loginKey ((credUsername w.env).getD "") ((credApiKey w.env).getD ""))]
            session :=
              { authToken := b.token
                tokenExpiry := some (w.now + 24 * 60 * 60 * 1000)
                axiosInstance := true } })) := by
  refine ⟨?_, ?_, ?_⟩
  · intro h1 h2
    simp [ensureAuthenticated, h1, h2]
  · intro hna hcred
    unfold ensureAuthenticated
    rw [if_pos hna]
    exact authenticate_no_creds w hcred
  · intro b rest hna hcu hck hrem hs ht
    unfold ensureAuthenticated
    rw [if_pos hna]
    exact authenticate_ok hcu hck hrem hs ht

/-- C7 witness: the amended contract at two concrete worlds — a valid
session short-circuits, and a fresh login stores the returned token
with a 24-hour expiry. -/
theorem c7_ensure_authenticated_contract_witness :
    ensureAuthenticated (sampleWorld []) = (Except.ok (), sampleWorld []) ∧
    ensureAuthenticated loginWorld = (Except.ok (),
      { loginWorld with
          remote := []
          calls := [("/Auth/loginKey", ReqBody.loginKey "user" "key")]
          session :=
            { authToken := some "tok2"
              tokenExpiry := some (500 + 24 * 60 * 60 * 1000)
              axiosInstance := true } }) :=
  ⟨(c7_ensure_authenticated_contract (sampleWorld [])).1 (by decide) (by decide),
   (c7_ensure_authenticated_contract loginWorld).2.2 authOkBody []
     (Or.inl (by decide)) (by decide) (by decide) rfl (by decide) (by decide)⟩

/-- C1: with a valid session, every Gateway call behaves as follows.
A non-401 rejection propagates immediately with no re-authentication
and no retry.  A 2xx envelope reporting failure propagates immediately
with no retry.  A 401 rejection clears the token, performs exactly one
re-authentication and exactly one retry of the call (three HTTP
attempts in total), and the retry outcome — success or any failure,
including a second 401 — is final.  A 401 whose re-authentication fails
propagates the authentication failure with no retry. -/
theorem c1_single_retry_on_401 (w : World) (path : String) (body : ReqBody)
    (hv : validSession w) :
    (∀ s rest, s ≠ some 401 → w.remote = HttpOutcome.err s :: rest →
      topstepxRequest w path body =
        (Except.error (JsError.http s), wAfterCall w path body rest)) ∧
    (∀ b rest, w.remote = HttpOutcome.ok b :: rest → b.success = some false →
      topstepxRequest w path body =
        (Except.error (JsError.error (strOrD b.errorMessage "Request failed")),
         wAfterCall w path body rest)) ∧
    (∀ ab r2 rest,
      w.remote = HttpOutcome.err (some 401) :: HttpOutcome.ok ab :: r2 :: rest →
      truthyStr (credUsername w.env) = true → truthyStr (credApiKey w.env) = true →
      ab.success = some true → truthyStr ab.token = true →
      topstepxRequest w path body =
        ((match r2 with
          | HttpOutcome.ok b2 => retryNormalizeBody b2
          | HttpOutcome.err s2 => Except.error (JsError.http s2)),
         { w with
             remote := rest
             calls := w.calls ++ [(path, body),
               ("/Auth/loginKey", ReqBody.loginKey ((credUsername w.env).getD "")
                   ((credApiKey w.env).getD "")),
               (path, body)]
             session :=
               { authToken := ab.token
                 tokenExpiry := some (w.now + 24 * 60 * 60 * 1000)
                 axiosInstance := true } })) ∧
    (∀ s2 rest, w.remote = HttpOutcome.err (some 401) :: HttpOutcome.err s2 :: rest →
      truthyStr (credUsername w.env) = true → truthyStr (credApiKey w.env) = true →
      topstepxRequest w path body =
        (Except.error (JsError.http s2),
         { w with
             remote := rest
             calls := w.calls ++ [(path, body),
               ("/Auth/loginKey", ReqBody.loginKey ((credUsername w.env).getD "")
                   ((credApiKey w.env).getD ""))]
             session := { w.session with authToken := none } })) := by
  refine ⟨?_, ?_, ?_, ?_⟩
  · intro s rest hs hrem
    rw [topstepxRequest_of_valid w path body hv, requestAttempt_err path body hrem hs]
  · intro b rest hrem hsf
    rw [topstepxRequest_of_valid w path body hv, requestAttempt_ok path body hrem]
    simp [normalizeBody, hsf]
  · intro ab r2 rest hrem hcu hck hs ht
    cases r2 with
    | ok b2 =>
      exact topstepxRequest_401_authok w path body ab (HttpOutcome.ok b2) rest hv hrem
        hcu hck hs ht
    | err s2 =>
      exact topstepxRequest_401_authok w path body ab (HttpOutcome.err s2) rest hv hrem
        hcu hck hs ht
  · intro s2 rest hrem hcu hck
    rw [topstepxRequest_of_valid w path body hv, requestAttempt_401 path body hrem]
    rw [requestRetry_auth_httperr (wAfterCall w path body (HttpOutcome.err s2 :: rest))
      path body s2 rest hcu hck rfl]
    simp [wAfterCall]

/-- C1 witness: a 401, a successful re-login, then a successful retry:
the call returns the retried payload after exactly three logged HTTP
attempts. -/
theorem c1_single_retry_on_401_witness :
    (topstepxRequest
      (sampleWorld [HttpOutcome.err (some 401), HttpOutcome.ok authOkBody,
        HttpOutcome.ok { success := some true, data := some (Value.num 5) }])
      "/Account/search" (ReqBody.accountSearch true)).1
      = Except.ok (GatewayValue.ofVal (Value.num 5)) := by
  have h := (c1_single_retry_on_401
      (sampleWorld [HttpOutcome.err (some 401), HttpOutcome.ok authOkBody,
        HttpOutcome.ok { success := some true, data := some (Value.num 5) }])
      "/Account/search" (ReqBody.accountSearch true) ⟨rfl, rfl, rfl⟩).2.2.1 authOkBody
      (HttpOutcome.ok { success := some true, data := some (Value.num 5) }) [] rfl
      (by decide) (by decide) (by decide) (by decide)
  rw [h]
  rfl

/-- C3 counterexample: a retry response whose `success` field is absent
is not returned as the raw body — the retry path throws "Request
failed" instead.  Script: 401, successful re-login, then a 2xx body
with no `success` field. -/
theorem c3_retry_raw_body_not_returned :
    (({} : Body).success = none) ∧
    (topstepxRequest
        (sampleWorld [HttpOutcome.err (some 401), HttpOutcome.ok authOkBody, HttpOutcome.ok {}])
        "/Account/search" (ReqBody.accountSearch true)).1
      = Except.error (JsError.error "Request failed") ∧
    (topstepxRequest
        (sampleWorld [HttpOutcome.err (some 401), HttpOutcome.ok authOkBody, HttpOutcome.ok {}])
        "/Account/search" (ReqBody.accountSearch true)).1
      ≠ Except.ok (GatewayValue.ofBody {}) := by
  refine ⟨rfl, ?_, ?_⟩
  · rfl
  · intro hc
    rw [show (topstepxRequest
        (sampleWorld [HttpOutcome.err (some 401), HttpOutcome.ok authOkBody, HttpOutcome.ok {}])
        "/Account/search" (ReqBody.accountSearch true)).1
      = Except.error (JsError.error "Request failed") from rfl] at hc
    exact Except.noConfusion hc

/-- C3 amended: a first-attempt 2xx response is normalized exactly as
claimed: `success` present-and-false fails with `errorMessage` (default
"Request failed"); present-and-true returns `data` when present, else
the whole envelope; an absent `success` returns the raw body.  The
response to the post-re-authentication retry is normalized differently:
unless `success` is present and true it fails with `errorMessage`
(never returning a raw body), and on success it returns the `data`
field — `undefined` when absent — never the whole envelope. -/
theorem c3_gateway_normalization (w : World) (path : String) (body : ReqBody)
    (hv : validSession w) :
    (∀ b rest, w.remote = HttpOutcome.ok b :: rest →
      (b.success = some false →
        topstepxRequest w path body =
          (Except.error (JsError.error (strOrD b.errorMessage "Request failed")),
           wAfterCall w path body rest)) ∧
      (∀ v, b.success = some true → b.data = some v →
        topstepxRequest w path body =
          (Except.ok (GatewayValue.ofVal v), wAfterCall w path body rest)) ∧
      (b.success = some true → b.data = none →
        topstepxRequest w path body =
          (Except.ok (GatewayValue.ofBody b), wAfterCall w path body rest)) ∧
      (b.success = none →
        topstepxRequest w path body =
          (Except.ok (GatewayValue.ofBody b), wAfterCall w path body rest))) ∧
    (∀ ab b2 rest,
      w.remote = HttpOutcome.err (some 401) :: HttpOutcome.ok ab :: HttpOutcome.ok b2 :: rest →
      truthyStr (credUsername w.env) = true → truthyStr (credApiKey w.env) = true →
      ab.success = some true → truthyStr ab.token = true →
      (topstepxRequest w path body).1 =
        (if b2.success = some true then
          Except.ok (match b2.data with
            | some v => GatewayValue.ofVal v
            | none => GatewayValue.undef)
         else Except.error (JsError.error (strOrD b2.errorMessage "Request failed")))) := by
  refine ⟨?_, ?_⟩
  · intro b rest hrem
    have heq : topstepxRequest w path body = (normalizeBody b, wAfterCall w path body rest) := by
      rw [topstepxRequest_of_valid w path body hv, requestAttempt_ok path body hrem]
    refine ⟨?_, ?_, ?_, ?_⟩
    · intro hsf
      rw [heq]
      simp [normalizeBody, hsf]
    · intro v hs hd
      rw [heq]
      simp [normalizeBody, hs, hd]
    · intro hs hd
      rw [heq]
      simp [normalizeBody, hs, hd]
    · intro hn
      rw [heq]
      simp [normalizeBody, hn]
  · intro ab b2 rest hrem hcu hck hs ht
    have h := topstepxRequest_401_authok w path body ab (HttpOutcome.ok b2) rest hv hrem
      hcu hck hs ht
    rw [h]
    rfl

/-- C3 witness: the amended rule at concrete inputs — a raw body with no
`success` field is returned unchanged on a first attempt, and a retry
body with `success` true and no `data` yields `undefined`. -/
theorem c3_gateway_normalization_witness :
    topstepxRequest (sampleWorld [HttpOutcome.ok {}]) "/Account/search"
        (ReqBody.accountSearch true)
      = (Except.ok (GatewayValue.ofBody {}),
         wAfterCall (sampleWorld [HttpOutcome.ok {}]) "/Account/search"
           (ReqBody.accountSearch true) []) ∧
    (topstepxRequest
        (sampleWorld [HttpOutcome.err (some 401), HttpOutcome.ok authOkBody,
          HttpOutcome.ok { success := some true }])
        "/Account/search" (ReqBody.accountSearch true)).1
      = Except.ok GatewayValue.undef :=
  ⟨(((c3_gateway_normalization (sampleWorld [HttpOutcome.ok {}]) "/Account/search"
      (ReqBody.accountSearch true) ⟨rfl, rfl, rfl⟩).1 {} [] rfl).2.2.2) rfl,
   by
    have h := (c3_gateway_normalization
        (sampleWorld [HttpOutcome.err (some 401), HttpOutcome.ok authOkBody,
          HttpOutcome.ok { success := some true }])
        "/Account/search" (ReqBody.accountSearch true) ⟨rfl, rfl, rfl⟩).2 authOkBody
        { success := some true } [] rfl (by decide) (by decide) (by decide) (by decide)
    rw [h]
    rfl⟩

/-- C5: the refresh operation (`initializeData`, also the body of the
periodic timer) never throws, whatever the remote does; the account map
after a refresh is exactly what the `/Account/search` outcome dictates:
unchanged on a failed search, and rebuilt from the accounts of a
successful response otherwise (contract loading never touches it); and
for id-distinct account lists the rebuilt map contains exactly the
returned accounts, keyed by id. -/
theorem c5_refresh_account_snapshot (w : World) :
    (initializeData w).1 = Except.ok () ∧
    (loadAccounts w).1 = Except.ok () ∧
    (loadContracts w).1 = Except.ok () ∧
    (initializeData w).2.accountsCache = (loadAccounts w).2.accountsCache ∧
    (loadAccounts w).2.accountsCache =
      (match topstepxRequest w "/Account/search" (ReqBody.accountSearch true) with
       | (Except.error _, _) => w.accountsCache
       | (Except.ok v, _) =>
         if truthyGV v ∧ (accountsProp v).isSome then
           buildAccountMap ((accountsProp v).getD [])
         else []) ∧
    (∀ l : List Account, (l.map Account.id).Nodup → ∀ i a,
      recordGet (buildAccountMap l) i = some a ↔ a ∈ l ∧ a.id = i) := by
  rcases hr : topstepxRequest w "/Account/search" (ReqBody.accountSearch true) with ⟨r, w1⟩
  have hf := topstepxRequest_frame w "/Account/search" (ReqBody.accountSearch true)
  rw [hr] at hf
  have ha1 : w1.accountsCache = w.accountsCache := hf.1.2.2.1
  have hrepop : ∀ v, (repopulateAccounts w1 v).accountsCache =
      if truthyGV v ∧ (accountsProp v).isSome then
        buildAccountMap ((accountsProp v).getD [])
      else [] := by
    intro v
    unfold repopulateAccounts
    by_cases hcond : truthyGV v ∧ (accountsProp v).isSome
    · rw [if_pos hcond, if_pos hcond]
    · rw [if_neg hcond, if_neg hcond]
  have hgen : ∀ wx : World, loadAccounts w = (Except.ok (), wx) →
      (initializeData w).2.accountsCache = wx.accountsCache := by
    intro wx hx
    unfold initializeData
    rw [hx]
    show (COMMON_SYMBOLS.foldl loadContractsStep
        { wx with contractsCache := [], symbolToContractIdMap := [] }).accountsCache
      = wx.accountsCache
    rw [foldl_loadContractsStep_accounts]
  cases r with
  | error e =>
    have hload : loadAccounts w = (Except.ok (), w1) := by
      unfold loadAccounts
      rw [hr]
    refine ⟨?_, ?_, rfl, ?_, ?_, ?_⟩
    · unfold initializeData
      rw [hload]
      rfl
    · rw [hload]
    · rw [hgen w1 hload, hload]
    · rw [hload]
      exact ha1
    · intro l hnd i a
      unfold buildAccountMap
      rw [foldl_recordSet_keyed l [] (by intro b _; rfl) hnd, List.nil_append]
      exact recordGet_keyed l hnd i a
  | ok v =>
    have hload : loadAccounts w = (Except.ok (), repopulateAccounts w1 v) := by
      unfold loadAccounts
      rw [hr]
    refine ⟨?_, ?_, rfl, ?_, ?_, ?_⟩
    · unfold initializeData
      rw [hload]
      rfl
    · rw [hload]
    · rw [hgen (repopulateAccounts w1 v) hload, hload]
    · rw [hload]
      exact hrepop v
    · intro l hnd i a
      unfold buildAccountMap
      rw [foldl_recordSet_keyed l [] (by intro b _; rfl) hnd, List.nil_append]
      exact recordGet_keyed l hnd i a

/-- C5 witness: a concrete refresh against a failing account search
leaves the one cached account in place, never throwing; and the keyed
characterization evaluated on a two-account response. -/
theorem c5_refresh_account_snapshot_witness :
    (initializeData (sampleWorld [HttpOutcome.err none])).1 = Except.ok () ∧
    (loadAccounts (sampleWorld [HttpOutcome.err none])).2.accountsCache
      = [(7, demoAccount)] ∧
    recordGet (buildAccountMap [demoAccount, mesAccount]) 9 = some mesAccount := by
  refine ⟨(c5_refresh_account_snapshot (sampleWorld [HttpOutcome.err none])).1, ?_, ?_⟩
  · rw [(c5_refresh_account_snapshot (sampleWorld [HttpOutcome.err none])).2.2.2.2.1]
    rfl
  · exact ((c5_refresh_account_snapshot (sampleWorld [HttpOutcome.err none])).2.2.2.2.2
      [demoAccount, mesAccount] (by decide) 9 mesAccount).mpr (by simp [mesAccount])

/-- C9: whenever `close_position`'s symbol resolves to a contract, the
handler reports that no open position was found (position retrieval is
always empty) and never issues a `/Position/close-partial` call — the
only HTTP attempts possible are the contract search and a login. -/
theorem c9_close_position_always_not_found (w : World) (args : ClosePositionArgs)
    (symbol : String) (c : Contract)
    (hsym : args.symbol = some symbol) (hne : symbol ≠ "")
    (hres : (getContractBySymbol w symbol).1 = some c) :
    handleClosePosition w args =
      (ToolResult.err ("No open position found for " ++ symbol),
       (getContractBySymbol w symbol).2) ∧
    (∃ l, (getContractBySymbol w symbol).2.calls = w.calls ++ l ∧
      "/Position/close-partial" ∉ l.map Prod.fst) := by
  constructor
  · have hts : truthyStr args.symbol = true := by
      rw [hsym]
      simp [truthyStr, hne]
    unfold handleClosePosition
    rw [if_neg (by simp [hts])]
    rw [hsym]
    simp only [Option.getD_some]
    rcases hg : getContractBySymbol w symbol with ⟨rc, w1⟩
    rw [hg] at hres
    simp only at hres
    subst hres
    rfl
  · obtain ⟨l, hl, hm⟩ := (getContractBySymbol_frame w symbol).2.2.2
    refine ⟨l, hl, ?_⟩
    intro hmem
    rcases List.mem_map.mp hmem with ⟨p, hp, hfst⟩
    have hmm := hm p hp
    simp only [List.mem_cons, List.mem_singleton, List.not_mem_nil, or_false] at hmm
    rcases hmm with h | h <;> rw [hfst] at h <;> exact absurd h (by decide)

/-- C9 witness: closing a position on the cached MES symbol reports "no
open position" with the world unchanged. -/
theorem c9_close_position_always_not_found_witness :
    handleClosePosition (sampleWorld [])
        { symbol := some "MES", accountId := none, quantity := none }
      = (ToolResult.err "No open position found for MES", sampleWorld []) :=
  (c9_close_position_always_not_found (sampleWorld [])
    { symbol := some "MES", accountId := none, quantity := none }
    "MES" mesContract rfl (by decide) rfl).1

theorem handlePlaceOrder_resolved (w : World) (args : PlaceOrderArgs) (symbol : String)
    (c : Contract) (w1 : World)
    (hsym : args.symbol = some symbol) (hne : symbol ≠ "")
    (hside : truthyStr args.side = true) (hqty : truthyInt args.quantity = true)
    (hg : getContractBySymbol w symbol = (some c, w1))
    (hacct : truthyNat (if truthyNat args.accountId then args.accountId
      else getDefaultAccountId w1) = true) :
    handlePlaceOrder w args =
      (if (args.orderType.getD "Market" = "Limit" ∨
            args.orderType.getD "Market" = "StopLimit") ∧ truthyInt args.price = false then
        (ToolResult.err "Price is required for Limit orders", w1)
      else if (args.orderType.getD "Market" = "Stop" ∨
            args.orderType.getD "Market" = "StopLimit") ∧
            truthyInt args.stopPrice = false then
        (ToolResult.err "Stop price is required for Stop orders", w1)
      else
        match topstepxRequest w1 "/Order/place"
            (ReqBody.order (buildOrderRequest args c
              ((if truthyNat args.accountId then args.accountId
                else getDefaultAccountId w1).getD 0))) with
        | (Except.error e, w2) =>
          (ToolResult.err ("Failed to place order: " ++ errText e), w2)
        | (Except.ok v, w2) => (ToolResult.ok (ToolPayload.orderPlaced v), w2)) := by
  have hts : truthyStr args.symbol = true := by
    rw [hsym]
    simp [truthyStr, hne]
  unfold handlePlaceOrder
  rw [if_neg (by simp [hts, hside, hqty])]
  rw [hsym]
  simp only [Option.getD_some]
  rw [hg]
  exact if_neg (by simp [hacct])

/-- C10: `place_order` treats falsy argument values as absent.  A
quantity of 0 hits the missing-required-arguments error before any
work.  When the symbol resolves and an account is available: a price of
0 with orderType Limit or StopLimit is rejected as a missing price, and
a stopPrice of 0 with orderType Stop (or StopLimit, once the price is
truthy) is rejected as a missing stop price; in each case the final
world is the one after contract resolution, whose only possible new
calls are the contract search and a login — never `/Order/place`. -/
theorem c10_falsy_values_treated_as_absent (w : World) (args : PlaceOrderArgs) :
    (args.quantity = some 0 →
      handlePlaceOrder w args =
        (ToolResult.err "Symbol, side, and quantity are required", w)) ∧
    (∀ symbol c w1,
      args.symbol = some symbol → symbol ≠ "" → truthyStr args.side = true →
      truthyInt args.quantity = true →
      getContractBySymbol w symbol = (some c, w1) →
      truthyNat (if truthyNat args.accountId then args.accountId
        else getDefaultAccountId w1) = true →
      (∃ l, w1.calls = w.calls ++ l ∧ "/Order/place" ∉ l.map Prod.fst) ∧
      ((args.orderType = some "Limit" ∨ args.orderType = some "StopLimit") →
        args.price = some 0 →
        handlePlaceOrder w args = (ToolResult.err "Price is required for Limit orders", w1)) ∧
      (args.orderType = some "Stop" → args.stopPrice = some 0 →
        handlePlaceOrder w args =
          (ToolResult.err "Stop price is required for Stop orders", w1)) ∧
      (args.orderType = some "StopLimit" → truthyInt args.price = true →
        args.stopPrice = some 0 →
        handlePlaceOrder w args =
          (ToolResult.err "Stop price is required for Stop orders", w1))) := by
  constructor
  · intro hq
    unfold handlePlaceOrder
    rw [if_pos (show ¬ (truthyStr args.symbol = true ∧ truthyStr args.side = true ∧
        truthyInt args.quantity = true) from fun hcon => by
      rw [hq] at hcon
      exact absurd hcon.2.2 (by decide))]
  · intro symbol c w1 hsym hne hside hqty hg hacct
    have hmain := handlePlaceOrder_resolved w args symbol c w1 hsym hne hside hqty hg hacct
    refine ⟨?_, ?_, ?_, ?_⟩
    · have h := getContractBySymbol_frame w symbol
      rw [hg] at h
      obtain ⟨l, hl, hm⟩ := h.2.2.2
      have hl1 : w1.calls = w.calls ++ l := hl
      refine ⟨l, hl1, ?_⟩
      intro hmem
      rcases List.mem_map.mp hmem with ⟨p, hp, hfst⟩
      have hmm := hm p hp
      simp only [List.mem_cons, List.mem_singleton, List.not_mem_nil, or_false] at hmm
      rcases hmm with h2 | h2 <;> rw [hfst] at h2 <;> exact absurd h2 (by decide)
    · intro hot hp0
      rw [hmain]
      rw [if_pos ⟨by rcases hot with h | h <;> rw [h] <;> simp, by rw [hp0]; rfl⟩]
    · intro hot hsp0
      rw [hmain]
      rw [if_neg (by simp [hot])]
      rw [if_pos ⟨Or.inl (by rw [hot]; rfl), by rw [hsp0]; rfl⟩]
    · intro hot hpt hsp0
      rw [hmain]
      rw [if_neg (by simp [hpt])]
      rw [if_pos ⟨Or.inr (by rw [hot]; rfl), by rw [hsp0]; rfl⟩]

/-- C10 witness: the three falsy rejections at concrete inputs on the
cached MES symbol (no remote call possible: the worlds are unchanged). -/
theorem c10_falsy_values_treated_as_absent_witness :
    handlePlaceOrder (sampleWorld [])
        { symbol := some "MES", side := some "Buy", quantity := some 0 }
      = (ToolResult.err "Symbol, side, and quantity are required", sampleWorld []) ∧
    handlePlaceOrder (sampleWorld [])
        { symbol := some "MES", side := some "Buy", quantity := some 1
          orderType := some "Limit", price := some 0 }
      = (ToolResult.err "Price is required for Limit orders", sampleWorld []) ∧
    handlePlaceOrder (sampleWorld [])
        { symbol := some "MES", side := some "Buy", quantity := some 1
          orderType := some "Stop", stopPrice := some 0 }
      = (ToolResult.err "Stop price is required for Stop orders", sampleWorld []) :=
  ⟨(c10_falsy_values_treated_as_absent (sampleWorld [])
      { symbol := some "MES", side := some "Buy", quantity := some 0 }).1 rfl,
   ((c10_falsy_values_treated_as_absent (sampleWorld [])
      { symbol := some "MES", side := some "Buy", quantity := some 1
        orderType := some "Limit", price := some 0 }).2 "MES" mesContract (sampleWorld [])
      rfl (by decide) (by decide) (by decide) rfl (by decide)).2.1 (Or.inl rfl) rfl,
   ((c10_falsy_values_treated_as_absent (sampleWorld [])
      { symbol := some "MES", side := some "Buy", quantity := some 1
        orderType := some "Stop", stopPrice := some 0 }).2 "MES" mesContract (sampleWorld [])
      rfl (by decide) (by decide) (by decide) rfl (by decide)).2.2.1 rfl rfl⟩

/-- C2 counterexample: `place_order` with orderType Limit and no price
on an *uncached* symbol issues a remote `/Contract/search` call before
the price validation fires — the claim's "issues no remote call ... for
every symbol (cached or uncached)" is false. -/
theorem c2_uncached_limit_order_issues_search :
    (handlePlaceOrder uncachedWorld
        { symbol := some "MES", side := some "Buy", quantity := some 1
          orderType := some "Limit" }).1
      = ToolResult.err "Price is required for Limit orders" ∧
    (handlePlaceOrder uncachedWorld
        { symbol := some "MES", side := some "Buy", quantity := some 1
          orderType := some "Limit" }).2.calls
      = [("/Contract/search", ReqBody.contractSearch "MES" false)] ∧
    uncachedWorld.calls = [] := by
  refine ⟨?_, ?_, rfl⟩ <;> rfl

/-- C2 amended: every embedded tool handler whose required argument set
is incomplete returns a structured error result with the world — in
particular the call log — unchanged.  `place_order` with orderType
Limit (or StopLimit) and a falsy price returns the ValidationError
without issuing `/Order/place`; for a cached symbol no remote call at
all is issued, while for an uncached symbol the contract resolution
issues a `/Contract/search` (plus possibly a login) before the price
check, and still no `/Order/place`. -/
theorem c2_missing_arguments_no_remote_call (w : World) :
    (∀ args : PlaceOrderArgs,
      ¬ (truthyStr args.symbol = true ∧ truthyStr args.side = true ∧
          truthyInt args.quantity = true) →
      handlePlaceOrder w args =
        (ToolResult.err "Symbol, side, and quantity are required", w)) ∧
    (∀ args : ClosePositionArgs, truthyStr args.symbol = false →
      handleClosePosition w args = (ToolResult.err "Symbol is required", w)) ∧
    (∀ symbol, truthyStr symbol = false →
      handleGetContractDetails w symbol = (ToolResult.err "Symbol is required", w)) ∧
    (∀ searchText limit, truthyStr searchText = false →
      handleSearchContracts w searchText limit =
        (ToolResult.err "Search text is required", w)) ∧
    (∀ orderId, truthyNat orderId = false →
      handleCancelOrder w orderId = (ToolResult.err "Order ID is required", w)) ∧
    (∀ args : ModifyOrderArgs, truthyNat args.orderId = false →
      handleModifyOrder w args = (ToolResult.err "Order ID is required", w)) ∧
    (∀ args : GetBarsArgs,
      ¬ (truthyStr args.symbol = true ∧ truthyStr args.startTime = true ∧
          truthyStr args.endTime = true) →
      handleGetBars w args =
        (ToolResult.err "Symbol, startTime, and endTime are required", w)) ∧
    (∀ args : PlaceOrderArgs, ∀ symbol c,
      args.symbol = some symbol → symbol ≠ "" → truthyStr args.side = true →
      truthyInt args.quantity = true →
      recordGet w.contractsCache symbol = some c →
      truthyNat (if truthyNat args.accountId then args.accountId
        else getDefaultAccountId w) = true →
      (args.orderType = some "Limit" ∨ args.orderType = some "StopLimit") →
      truthyInt args.price = false →
      handlePlaceOrder w args = (ToolResult.err "Price is required for Limit orders", w)) ∧
    (∀ args : PlaceOrderArgs, ∀ symbol c w1,
      args.symbol = some symbol → symbol ≠ "" → truthyStr args.side = true →
      truthyInt args.quantity = true →
      getContractBySymbol w symbol = (some c, w1) →
      truthyNat (if truthyNat args.accountId then args.accountId
        else getDefaultAccountId w1) = true →
      (args.orderType = some "Limit" ∨ args.orderType = some "StopLimit") →
      truthyInt args.price = false →
      handlePlaceOrder w args = (ToolResult.err "Price is required for Limit orders", w1) ∧
      ∃ l, w1.calls = w.calls ++ l ∧
        (∀ p ∈ l, p.1 = "/Contract/search" ∨ p.1 = "/Auth/loginKey") ∧
        "/Order/place" ∉ l.map Prod.fst) := by
  refine ⟨?_, ?_, ?_, ?_, ?_, ?_, ?_, ?_, ?_⟩
  · intro args h
    unfold handlePlaceOrder
    rw [if_pos h]
  · intro args h
    unfold handleClosePosition
    rw [if_pos h]
  · intro symbol h
    unfold handleGetContractDetails
    rw [if_pos h]
  · intro searchText limit h
    unfold handleSearchContracts
    rw [if_pos h]
  · intro orderId h
    unfold handleCancelOrder
    rw [if_pos h]
  · intro args h
    unfold handleModifyOrder
    rw [if_pos h]
  · intro args h
    unfold handleGetBars
    rw [if_pos h]
  · intro args symbol c hsym hne hside hqty hcc hacct hot hpf
    have hg : getContractBySymbol w symbol = (some c, w) := by
      unfold getContractBySymbol
      rw [hcc]
    rw [handlePlaceOrder_resolved w args symbol c w hsym hne hside hqty hg hacct]
    rw [if_pos ⟨by rcases hot with h | h <;> rw [h] <;> simp, hpf⟩]
  · intro args symbol c w1 hsym hne hside hqty hg hacct hot hpf
    constructor
    · rw [handlePlaceOrder_resolved w args symbol c w1 hsym hne hside hqty hg hacct]
      rw [if_pos ⟨by rcases hot with h | h <;> rw [h] <;> simp, hpf⟩]
    · have h := getContractBySymbol_frame w symbol
      rw [hg] at h
      obtain ⟨l, hl, hm⟩ := h.2.2.2
      have hl1 : w1.calls = w.calls ++ l := hl
      refine ⟨l, hl1, ?_, ?_⟩
      · intro p hp
        have hmm := hm p hp
        simp only [List.mem_cons, List.mem_singleton, List.not_mem_nil, or_false] at hmm
        exact hmm
      · intro hmem
        rcases List.mem_map.mp hmem with ⟨p, hp, hfst⟩
        have hmm := hm p hp
        simp only [List.mem_cons, List.mem_singleton, List.not_mem_nil, or_false] at hmm
        rcases hmm with h2 | h2 <;> rw [hfst] at h2 <;> exact absurd h2 (by decide)

/-- C2 witness: a missing price on the cached MES symbol returns the
validation error with the world unchanged, and a missing quantity hits
the required-arguments error. -/
theorem c2_missing_arguments_no_remote_call_witness :
    handlePlaceOrder (sampleWorld [])
        { symbol := some "MES", side := some "Buy", quantity := some 1
          orderType := some "Limit" }
      = (ToolResult.err "Price is required for Limit orders", sampleWorld []) ∧
    handlePlaceOrder (sampleWorld []) { symbol := some "MES" }
      = (ToolResult.err "Symbol, side, and quantity are required", sampleWorld []) :=
  ⟨(c2_missing_arguments_no_remote_call (sampleWorld [])).2.2.2.2.2.2.2.1
      { symbol := some "MES", side := some "Buy", quantity := some 1
        orderType := some "Limit" } "MES" mesContract
      rfl (by decide) (by decide) (by decide) rfl (by decide) (Or.inl rfl) (by decide),
   (c2_missing_arguments_no_remote_call (sampleWorld [])).1 { symbol := some "MES" }
      (by intro h; exact absurd h.2.1 (by decide))⟩

end TopstepX
